import Mathlib

/-!
Shallow embedding of the `useAsyncView` controller of `use-async-view`.

The embedded implementation is the guarded web hook
(`src/unnamed/part_002`, `hooks/useAsyncView.tsx` with `isLoadingRef` and
`abortControllerRef`): it is the copy that owns the in-flight guard and the
cancellation token; the spec adopts it as canonical and flags the unguarded
copy (`src/src/hooks/useAsyncView.tsx`) as a defect.

React-host semantics used by the embedding:
* `useState` setters (`setStatus`, `setData`, `setError`) applied after the
  component has unmounted are discarded by React; the `mounted` flag models
  this.
* `useRef` cells (`hasRunRef`, `isLoadingRef`, `abortControllerRef`) are plain
  mutable cells and are updated regardless of mount state.
* Effects, effect cleanups and UI callbacks (`reload` from a rendered retry
  control) only fire while the component is mounted.

`AbortController` allocation is modelled by numbering tokens with `nextToken`;
`aborted` records every token whose `abort()` was called. The dispatch of
`loadFn` is modelled by `pending` (the token of the invocation awaiting
settlement) and `loadCount` (how many times `loadFn` has been invoked); the
settlement of the promise is a separate event `settle`, carrying either the
resolution value (`Option T`, since a `loadFn` of nullable result type may
resolve with `null`) or the rejection value.
-/

namespace UseAsyncView

/-- The `Status` union / `AsyncViewStatus` enum from `src/types/types`:
`"idle" | "loading" | "success" | "error"`. -/
inductive StatusType
  | idle
  | loading
  | success
  | error
deriving DecidableEq

/-- The per-instance state of one `useAsyncView` hook call:
`status`/`data`/`error` are the three `useState` cells, `hasRun`/`isLoading`/
`abortController` the three `useRef` cells (`abortController` holds the token
id of the current `AbortController`, if any). `nextToken` numbers token
allocations, `aborted` lists tokens whose `abort()` fired, `pending` is the
token of the in-flight invocation awaiting settlement, `mounted` is the React
mount state and `loadCount` counts invocations of `loadFn`. -/
structure HookState (T E : Type) where
  status : StatusType
  data : Option T
  error : Option E
  hasRun : Bool
  isLoading : Bool
  abortController : Option Nat
  nextToken : Nat
  aborted : List Nat
  pending : Option Nat
  mounted : Bool
  loadCount : Nat
deriving DecidableEq

variable {T E A : Type}

/-- Initial state: `useState("idle")`, `useState(null)`, `useState(null)`,
`useRef(false)`, `useRef(false)`, `useRef(null)`; the instance starts
mounted, with no token allocated and no invocation issued. -/
def initState (T E : Type) : HookState T E :=
  { status := .idle
    data := none
    error := none
    hasRun := false
    isLoading := false
    abortController := none
    nextToken := 0
    aborted := []
    pending := none
    mounted := true
    loadCount := 0 }

/-- React `setStatus`: discarded after unmount. -/
def setStatus (s : HookState T E) (v : StatusType) : HookState T E :=
  if s.mounted then { s with status := v } else s

/-- React `setData`: discarded after unmount. The argument is the raw
resolution value, which may be `none` (the promise resolved with `null`). -/
def setData (s : HookState T E) (v : Option T) : HookState T E :=
  if s.mounted then { s with data := v } else s

/-- React `setError`: discarded after unmount. -/
def setError (s : HookState T E) (v : Option E) : HookState T E :=
  if s.mounted then { s with error := v } else s

/-- The synchronous prelude of `run` (`src/unnamed/part_002` lines 77-88 and
the dispatch on line 90): if `isLoadingRef.current` is set, return at once;
otherwise allocate a new `AbortController` and store it in
`abortControllerRef`, set `isLoadingRef.current = true`, `setStatus("loading")`,
`setError(null)`, then invoke `loadFnRef.current(controller.signal)` — the
dispatch is recorded in `pending` and `loadCount`; its settlement is the
separate `settle` step. Note the prelude does not touch `data`. -/
def run (s : HookState T E) : HookState T E :=
  if s.isLoading then s
  else
    let token := s.nextToken
    let s1 : HookState T E :=
      { s with
        abortController := some token
        nextToken := token + 1
        isLoading := true
        pending := some token
        loadCount := s.loadCount + 1 }
    setError (setStatus s1 .loading) none

/-- `reload` (`src/unnamed/part_002` lines 101-103) just calls `run`. -/
def reload (s : HookState T E) : HookState T E :=
  run s

/-- Settlement of the in-flight invocation: the continuation of `run` after
`await` (`src/unnamed/part_002` lines 89-98). On resolution:
`setData(result); setStatus("success")`; on rejection the `catch` clause —
which is exhaustive, so no failure escapes to the host — runs
`setError(err); setStatus("error")`; in both cases the `finally` clause
clears `isLoadingRef.current`, a ref mutation that applies even after
unmount. No settlement can occur with no invocation pending. -/
def settle (s : HookState T E) (outcome : Except E (Option T)) : HookState T E :=
  match s.pending with
  | none => s
  | some _ =>
    let s1 :=
      match outcome with
      | .ok result => setStatus (setData s result) .success
      | .error err => setStatus (setError s (some err)) .error
    { s1 with isLoading := false, pending := none }

/-- The auto-start effect (`src/unnamed/part_002` lines 105-110), run on mount
and whenever `auto` changes: `if (!auto || hasRunRef.current) return;`
then `hasRunRef.current = true; run();`. -/
def autoEffect (s : HookState T E) (auto : Bool) : HookState T E :=
  if !auto || s.hasRun then s
  else run { s with hasRun := true }

/-- The unmount cleanup (`src/unnamed/part_002` lines 117-121):
`abortControllerRef.current?.abort()`, then the instance is unmounted. -/
def cleanupEffect (s : HookState T E) : HookState T E :=
  let s1 :=
    match s.abortController with
    | some t => { s with aborted := t :: s.aborted }
    | none => s
  { s1 with mounted := false }

/-- The events the host can deliver to one hook instance: the auto-start
effect firing with the current `auto` flag, a manual `reload()` call from the
rendered UI, the settlement of the pending invocation, and unmount. -/
inductive Event (T E : Type)
  | autoFire (auto : Bool)
  | reloadCall
  | settlement (outcome : Except E (Option T))
  | unmount

/-- One host step. Effects and UI callbacks fire only while mounted;
settlement of an already-dispatched promise can arrive at any time. -/
def step (s : HookState T E) : Event T E → HookState T E
  | .autoFire auto => if s.mounted then autoEffect s auto else s
  | .reloadCall => if s.mounted then reload s else s
  | .settlement o => settle s o
  | .unmount => if s.mounted then cleanupEffect s else s

/-- Run a sequence of host events from a state. -/
def runTrace (s : HookState T E) (es : List (Event T E)) : HookState T E :=
  es.foldl step s

/-- A state is reachable when some event trace from the initial state
produces it. -/
def Reachable (s : HookState T E) : Prop :=
  ∃ es : List (Event T E), runTrace (initState T E) es = s

/-- Inductive invariant of the controller: the in-flight guard mirrors the
pending invocation; the pending invocation's token is always the currently
active one (the guard forbids any replacement of `abortControllerRef` while
an invocation is in flight); `error` is cleared for the whole in-flight
window; and a stored `error` can only coexist with status `error`. -/
def Inv (s : HookState T E) : Prop :=
  s.isLoading = s.pending.isSome ∧
  (∀ t, s.pending = some t → s.abortController = some t) ∧
  (s.isLoading = true → s.error = none) ∧
  (s.error.isSome → s.status = .error)

theorem inv_initState (T E : Type) : Inv (initState T E) := by
  refine ⟨rfl, ?_, ?_, ?_⟩ <;> intro h <;> simp [initState] at *

theorem inv_run {s : HookState T E} (hm : s.mounted = true) (h : Inv s) :
    Inv (run s) := by
  by_cases hl : s.isLoading
  · simpa [run, hl] using h
  · simp [run, hl, setError, setStatus, hm, Inv]

theorem inv_settle {s : HookState T E} (h : Inv s) (o : Except E (Option T)) :
    Inv (settle s o) := by
  obtain ⟨h1, h2, h3, h4⟩ := h
  cases hp : s.pending with
  | none => simpa [settle, hp] using ⟨h1, h2, h3, h4⟩
  | some t =>
    have he : s.error = none := h3 (by rw [h1, hp]; rfl)
    cases o with
    | ok v =>
      by_cases hm : s.mounted <;>
        simp [settle, hp, setData, setStatus, hm, Inv, he]
    | error e =>
      by_cases hm : s.mounted <;>
        simp [settle, hp, setError, setStatus, hm, Inv, he]

theorem inv_autoEffect {s : HookState T E} (hm : s.mounted = true) (h : Inv s)
    (auto : Bool) : Inv (autoEffect s auto) := by
  unfold autoEffect
  split
  · exact h
  · exact inv_run (s := { s with hasRun := true }) hm h

theorem inv_cleanupEffect {s : HookState T E} (h : Inv s) :
    Inv (cleanupEffect s) := by
  obtain ⟨h1, h2, h3, h4⟩ := h
  unfold cleanupEffect
  cases hac : s.abortController <;> exact ⟨h1, fun t ht => by
      simp only [hac] at *; exact h2 t ht, h3, h4⟩

theorem inv_step {s : HookState T E} (h : Inv s) (e : Event T E) :
    Inv (step s e) := by
  cases e with
  | autoFire auto =>
    by_cases hm : s.mounted
    · simpa [step, hm] using inv_autoEffect hm h auto
    · simpa [step, hm] using h
  | reloadCall =>
    by_cases hm : s.mounted
    · simpa [step, reload, hm] using inv_run hm h
    · simpa [step, hm] using h
  | settlement o => exact inv_settle h o
  | unmount =>
    by_cases hm : s.mounted
    · simpa [step, hm] using inv_cleanupEffect h
    · simpa [step, hm] using h

theorem inv_runTrace {s : HookState T E} (h : Inv s) (es : List (Event T E)) :
    Inv (runTrace s es) := by
  induction es generalizing s with
  | nil => exact h
  | cons e es ih => exact ih (inv_step h e)

theorem reachable_inv {s : HookState T E} (h : Reachable s) : Inv s := by
  obtain ⟨es, rfl⟩ := h
  exact inv_runTrace (inv_initState T E) es

/-- The renderable the hook selects: the `Fallback` component, the `Loading`
component, the `Success` component applied to the loaded data, a
caller-supplied `Error` component, or the default `ErrorView`, which receives
its `message`, `error` and `runFunction` props. -/
inductive Rendered (T E A : Type)
  | fallback
  | loading
  | success (data : T)
  | customError
  | defaultError (message : String) (error : Option E) (runFunction : A)
deriving DecidableEq

/-- The `RenderedView` selection chain (`src/unnamed/part_002` lines 127-135):
`status === Loading || status === Idle` renders `Loading`/`Fallback`;
`status === Success && data !== null` renders `<Success data={data}/>`; the
final `else` renders the caller's `Error` component when supplied, otherwise
`<ErrorView message="Failed to load data." error={error} runFunction={reload}/>`.
`hasCustomError` states whether the optional `Error` component was supplied;
`reloadAction` is the hook's `reload` callback passed as `runFunction`. -/
def RenderedView (hasCustomError : Bool) (reloadAction : A)
    (status : StatusType) (data : Option T) (error : Option E) : Rendered T E A :=
  if status = .loading ∨ status = .idle then
    if status = .idle then .fallback else .loading
  else
    match status, data with
    | .success, some d => .success d
    | _, _ =>
      if hasCustomError then .customError
      else .defaultError "Failed to load data." error reloadAction

/-! Field lemmas shared by several results. -/

theorem run_of_isLoading {s : HookState T E} (h : s.isLoading = true) :
    run s = s := by
  simp [run, h]

theorem run_hasRun (s : HookState T E) : (run s).hasRun = s.hasRun := by
  by_cases hl : s.isLoading <;> by_cases hm : s.mounted <;>
    simp [run, setError, setStatus, hl, hm]

theorem run_loadCount {s : HookState T E} (hl : s.isLoading = false) :
    (run s).loadCount = s.loadCount + 1 := by
  by_cases hm : s.mounted <;> simp [run, setError, setStatus, hl, hm]

theorem settle_loadCount (s : HookState T E) (o : Except E (Option T)) :
    (settle s o).loadCount = s.loadCount := by
  cases hp : s.pending <;> cases o <;> by_cases hm : s.mounted <;>
    simp [settle, setData, setError, setStatus, hp, hm]

theorem settle_hasRun (s : HookState T E) (o : Except E (Option T)) :
    (settle s o).hasRun = s.hasRun := by
  cases hp : s.pending <;> cases o <;> by_cases hm : s.mounted <;>
    simp [settle, setData, setError, setStatus, hp, hm]

theorem settle_isLoading {s : HookState T E} {t : Nat}
    (hp : s.pending = some t) (o : Except E (Option T)) :
    (settle s o).isLoading = false := by
  cases o <;> by_cases hm : s.mounted <;>
    simp [settle, setData, setError, setStatus, hp, hm]

/-- C1: a `start()`/`reload()` call issued while `isInFlight` is true returns
immediately with the state fully unchanged — in particular `loadCount` (no
further invocation of `loadFn`) and `nextToken` (no further
`AbortController` allocation) are unchanged; the in-flight window therefore
dispatches only its first call, and this holds for every such call in the
window. -/
theorem reload_noop_while_in_flight (s : HookState T E)
    (h : s.isLoading = true) :
    reload s = s ∧ (reload s).loadCount = s.loadCount ∧
      (reload s).nextToken = s.nextToken := by
  have : reload s = s := by simp [reload, run, h]
  exact ⟨this, by rw [this], by rw [this]⟩

theorem reload_noop_while_in_flight_witness :
    (runTrace (initState Nat Nat) [Event.autoFire true]).isLoading = true ∧
      reload (runTrace (initState Nat Nat) [Event.autoFire true]) =
        runTrace (initState Nat Nat) [Event.autoFire true] :=
  ⟨by decide,
    (reload_noop_while_in_flight (runTrace (initState Nat Nat)
      [Event.autoFire true]) (by decide)).1⟩

/-- C2 counterexample: a reachable state in which `data` and `error` are both
present. Load once successfully (`data = some 5`), then `reload` — which
clears `error` but not `data` — and let the second invocation fail: the
resulting state keeps the stale `data = some 5` while holding
`error = some 7`. -/
theorem data_and_error_both_present :
    (runTrace (initState Nat Nat)
      [Event.autoFire true, Event.settlement (Except.ok (some 5)),
       Event.reloadCall, Event.settlement (Except.error 7)]).data = some 5 ∧
    (runTrace (initState Nat Nat)
      [Event.autoFire true, Event.settlement (Except.ok (some 5)),
       Event.reloadCall, Event.settlement (Except.error 7)]).error = some 7 := by
  decide

/-- C2 amended: `data` and `error` can be simultaneously present (starting a
new load clears `error` but leaves `data` untouched); the exclusivity that
does hold in every reachable state is one-directional: whenever `error` is
present the status is `error`. -/
theorem error_present_implies_status_error (s : HookState T E)
    (h : Reachable s) (he : s.error.isSome) : s.status = .error :=
  (reachable_inv h).2.2.2 he

theorem error_present_implies_status_error_witness :
    ((runTrace (initState Nat Nat)
        [Event.autoFire true, Event.settlement (Except.error 7)]).error.isSome
      = true) ∧
    (runTrace (initState Nat Nat)
        [Event.autoFire true, Event.settlement (Except.error 7)]).status
      = StatusType.error :=
  ⟨by decide,
    error_present_implies_status_error
      (runTrace (initState Nat Nat)
        [Event.autoFire true, Event.settlement (Except.error 7)])
      ⟨[Event.autoFire true, Event.settlement (Except.error 7)], rfl⟩
      (by decide)⟩

/-- C3 counterexample: a `start()` issued while `isInFlight` is false does not
clear `data`. After a successful load of `5`, calling `reload` leaves
`data = some 5` during the new in-flight window (the claim requires `data`
to be cleared, i.e. `none`). -/
theorem start_does_not_clear_data :
    (runTrace (initState Nat Nat)
      [Event.autoFire true, Event.settlement (Except.ok (some 5)),
       Event.reloadCall]).isLoading = true ∧
    (runTrace (initState Nat Nat)
      [Event.autoFire true, Event.settlement (Except.ok (some 5)),
       Event.reloadCall]).status = StatusType.loading ∧
    (runTrace (initState Nat Nat)
      [Event.autoFire true, Event.settlement (Except.ok (some 5)),
       Event.reloadCall]).data = some 5 := by
  decide

/-- C3 amended: a `start()` issued while `isInFlight` is false (on a mounted
instance) allocates a fresh cancellation token, sets `isInFlight` to true,
transitions status to `loading`, and clears `error` — but not `data`, which
retains its previous value — before invoking `loadOperation` (one more
`loadFn` invocation is dispatched). -/
theorem start_prelude (s : HookState T E) (hm : s.mounted = true)
    (hl : s.isLoading = false) :
    (run s).abortController = some s.nextToken ∧
    (run s).nextToken = s.nextToken + 1 ∧
    (run s).isLoading = true ∧
    (run s).status = .loading ∧
    (run s).error = none ∧
    (run s).data = s.data ∧
    (run s).pending = some s.nextToken ∧
    (run s).loadCount = s.loadCount + 1 := by
  simp [run, hl, setError, setStatus, hm]

theorem start_prelude_witness :
    ((initState Nat Nat).mounted = true ∧ (initState Nat Nat).isLoading = false) ∧
    (run (initState Nat Nat)).status = StatusType.loading :=
  ⟨⟨rfl, rfl⟩, (start_prelude (initState Nat Nat) rfl rfl).2.2.2.1⟩

/-- C4: in every reachable state, a settlement that mutates `status`, `data`
or `error` is one whose invocation's cancellation token is still the
currently active one, and every settlement of a pending invocation clears
`isInFlight`. The source performs no explicit token comparison at
settlement; the property holds because the in-flight guard makes
supersession unreachable: while an invocation is pending no new token can
replace its token in `abortControllerRef`. -/
theorem settle_mutates_only_with_active_token (s : HookState T E)
    (h : Reachable s) (o : Except E (Option T)) :
    (((settle s o).status ≠ s.status ∨ (settle s o).data ≠ s.data ∨
        (settle s o).error ≠ s.error) →
      ∃ t, s.pending = some t ∧ s.abortController = some t) ∧
    (s.pending.isSome = true → (settle s o).isLoading = false) := by
  obtain ⟨-, h2, -, -⟩ := reachable_inv h
  cases hp : s.pending with
  | none =>
    have hs : settle s o = s := by simp [settle, hp]
    constructor
    · intro hmut
      rw [hs] at hmut
      simp at hmut
    · intro hsome
      simp [hp] at hsome
  | some t =>
    exact ⟨fun _ => ⟨t, rfl, h2 t hp⟩, fun _ => settle_isLoading hp o⟩

theorem settle_mutates_only_with_active_token_witness :
    ((runTrace (initState Nat Nat) [Event.autoFire true]).pending.isSome
      = true) ∧
    (settle (runTrace (initState Nat Nat) [Event.autoFire true])
      (Except.ok (some 3))).isLoading = false :=
  ⟨by decide,
    (settle_mutates_only_with_active_token
      (runTrace (initState Nat Nat) [Event.autoFire true])
      ⟨[Event.autoFire true], rfl⟩ (Except.ok (some 3))).2 (by decide)⟩

/-- C5: deactivating the controller while an invocation is in flight fires
the active cancellation token's abort signal, and the settlement of that
invocation after deactivation leaves `status`, `data` and `error` at the
values they had at deactivation (React discards state updates on an
unmounted instance), so no controller-state mutation results from it. -/
theorem unmount_fires_abort_and_blocks_mutation (s : HookState T E)
    (h : Reachable s) (t : Nat) (hp : s.pending = some t)
    (hm : s.mounted = true) :
    t ∈ (step s Event.unmount).aborted ∧
    ∀ o : Except E (Option T),
      (settle (step s Event.unmount) o).status = s.status ∧
      (settle (step s Event.unmount) o).data = s.data ∧
      (settle (step s Event.unmount) o).error = s.error := by
  obtain ⟨-, h2, -, -⟩ := reachable_inv h
  have hac : s.abortController = some t := h2 t hp
  have hstep : step s Event.unmount =
      { s with aborted := t :: s.aborted, mounted := false } := by
    simp [step, hm, cleanupEffect, hac]
  refine ⟨by rw [hstep]; exact List.mem_cons_self t s.aborted, fun o => ?_⟩
  rw [hstep]
  cases o <;> simp [settle, hp, setData, setError, setStatus]

theorem unmount_fires_abort_and_blocks_mutation_witness :
    ((runTrace (initState Nat Nat) [Event.autoFire true]).pending = some 0 ∧
      (runTrace (initState Nat Nat) [Event.autoFire true]).mounted = true) ∧
    0 ∈ (step (runTrace (initState Nat Nat) [Event.autoFire true])
          Event.unmount).aborted :=
  ⟨⟨by decide, by decide⟩,
    (unmount_fires_abort_and_blocks_mutation
      (runTrace (initState Nat Nat) [Event.autoFire true])
      ⟨[Event.autoFire true], rfl⟩ 0 (by decide) (by decide)).1⟩

/-- C6: `RenderedView` is a pure selection function of the current state and
returns exactly one variant: `Fallback` when status is idle, `Loading` when
status is loading, `Success` applied to the data when status is success and
data is present, the error path when status is success and data is absent,
and, when status is error, the caller's `Error` component if supplied or
else the default `ErrorView` bound to the message "Failed to load data.",
the captured error, and the `reload` operation. -/
theorem RenderedView_selection (hc : Bool) (r : A) (d : T) (data : Option T)
    (error : Option E) :
    RenderedView hc r .idle data error = (.fallback : Rendered T E A) ∧
    RenderedView hc r .loading data error = (.loading : Rendered T E A) ∧
    RenderedView hc r .success (some d) error = (.success d : Rendered T E A) ∧
    RenderedView hc r .success none error =
      (if hc then .customError
       else (.defaultError "Failed to load data." error r : Rendered T E A)) ∧
    RenderedView hc r .error data error =
      (if hc then .customError
       else (.defaultError "Failed to load data." error r : Rendered T E A)) :=
  ⟨rfl, rfl, rfl, rfl, by cases data <;> rfl⟩

/-- An event that is not a start request: any auto-effect firing carries
`auto = false`, and no manual `reload()` call occurs. -/
def noStartRequest : Event T E → Bool
  | .autoFire a => !a
  | .reloadCall => false
  | .settlement _ => true
  | .unmount => true

theorem step_loadCount_of_noStartRequest (s : HookState T E) (e : Event T E)
    (he : noStartRequest e = true) : (step s e).loadCount = s.loadCount := by
  cases e with
  | autoFire a =>
    have ha : a = false := by simpa [noStartRequest] using he
    subst ha
    by_cases hm : s.mounted <;> simp [step, hm, autoEffect]
  | reloadCall => simp [noStartRequest] at he
  | settlement o => exact settle_loadCount s o
  | unmount =>
    by_cases hm : s.mounted <;>
      cases hac : s.abortController <;>
        simp [step, hm, cleanupEffect, hac]

theorem runTrace_loadCount_of_noStartRequest (es : List (Event T E))
    (s : HookState T E) (h : ∀ e ∈ es, noStartRequest e = true) :
    (runTrace s es).loadCount = s.loadCount := by
  induction es generalizing s with
  | nil => rfl
  | cons e es ih =>
    have he : noStartRequest e = true := h e (List.mem_cons_self e es)
    have hrest : ∀ e' ∈ es, noStartRequest e' = true :=
      fun e' he' => h e' (List.mem_cons_of_mem e he')
    calc (runTrace (step s e) es).loadCount
        = (step s e).loadCount := ih (step s e) hrest
      _ = s.loadCount := step_loadCount_of_noStartRequest s e he

/-- C7: with `auto = true`, the auto-start effect on the freshly mounted
instance issues exactly one invocation of `loadFn` and records it in
`hasRunRef`; once `hasRunRef` is set, further firings of the effect are
no-ops. With `auto = false`, as long as no manual `reload()` call occurs,
no invocation of `loadFn` is ever issued. -/
theorem auto_start_exactly_once (T E : Type) :
    (autoEffect (initState T E) true).loadCount = 1 ∧
    (autoEffect (initState T E) true).hasRun = true ∧
    (∀ s : HookState T E, s.hasRun = true → ∀ a, autoEffect s a = s) ∧
    (∀ es : List (Event T E), (∀ e ∈ es, noStartRequest e = true) →
      (runTrace (initState T E) es).loadCount = 0) := by
  refine ⟨?_, ?_, ?_, ?_⟩
  · simp [autoEffect, initState, run, setError, setStatus]
  · simp [autoEffect, initState, run, setError, setStatus]
  · intro s hs a
    simp [autoEffect, hs]
  · intro es h
    exact runTrace_loadCount_of_noStartRequest es (initState T E) h

theorem auto_start_exactly_once_witness :
    (autoEffect (initState Nat Nat) true).loadCount = 1 ∧
    (runTrace (initState Nat Nat)
      [Event.autoFire false, Event.unmount]).loadCount = 0 :=
  ⟨(auto_start_exactly_once Nat Nat).1,
    (auto_start_exactly_once Nat Nat).2.2.2
      [Event.autoFire false, Event.unmount] (by decide)⟩

/-- C8 counterexample: with `auto = false`, a manual `reload()` issues the
first invocation (`loadCount = 1`) yet `hasRunRef` stays `false` — the flag
is not set by a manual start, contrary to the claim. (In particular a later
switch of `auto` to `true` would fire a duplicate automatic start.) -/
theorem manual_start_leaves_hasRun_unset :
    (runTrace (initState Nat Nat)
      [Event.autoFire false, Event.reloadCall]).loadCount = 1 ∧
    (runTrace (initState Nat Nat)
      [Event.autoFire false, Event.reloadCall]).hasRun = false := by
  decide

/-- C8 amended: `hasRun` is set only by the automatic-start effect: it
becomes true exactly when an auto-effect firing with `auto = true` finds it
unset (issuing the one automatic start), and once true it makes every
further auto-effect firing a no-op; manual `reload()` calls and settlements
never change it, so a manual first start does not set the flag. -/
theorem hasRun_set_only_by_auto_effect (s : HookState T E) :
    (reload s).hasRun = s.hasRun ∧
    (∀ o : Except E (Option T), (settle s o).hasRun = s.hasRun) ∧
    (s.hasRun = true → ∀ a, autoEffect s a = s) ∧
    (s.hasRun = false → ∀ a, (autoEffect s a).hasRun = a) := by
  refine ⟨run_hasRun s, settle_hasRun s, ?_, ?_⟩
  · intro hs a
    simp [autoEffect, hs]
  · intro hs a
    cases a with
    | false => simp [autoEffect, hs]
    | true =>
      simp only [autoEffect, hs, Bool.not_true, Bool.false_or, if_neg
        (by simp : ¬ (false = true))]
      rw [run_hasRun]

theorem hasRun_set_only_by_auto_effect_witness :
    (initState Nat Nat).hasRun = false ∧
    (autoEffect (initState Nat Nat) true).hasRun = true :=
  ⟨rfl, (hasRun_set_only_by_auto_effect (initState Nat Nat)).2.2.2 rfl true⟩

/-- C9: a rejection of the pending invocation is captured by the exhaustive
`catch` clause — `settle` is a total function, nothing escapes to the host —
and surfaced only as `status = error` with the opaque rejection value stored
in `error`; the guard is released (`isInFlight = false`) and a subsequent
`reload()` dispatches `loadFn` again, so the controller remains usable. -/
theorem failure_captured_and_recoverable (s : HookState T E)
    (hp : s.pending.isSome = true) (hm : s.mounted = true) (e : E) :
    (settle s (Except.error e)).status = .error ∧
    (settle s (Except.error e)).error = some e ∧
    (settle s (Except.error e)).data = s.data ∧
    (settle s (Except.error e)).isLoading = false ∧
    (reload (settle s (Except.error e))).loadCount = s.loadCount + 1 := by
  obtain ⟨t, ht⟩ := Option.isSome_iff_exists.mp hp
  have hfields : (settle s (Except.error e)).status = .error ∧
      (settle s (Except.error e)).error = some e ∧
      (settle s (Except.error e)).data = s.data ∧
      (settle s (Except.error e)).isLoading = false := by
    simp [settle, ht, setError, setStatus, hm]
  refine ⟨hfields.1, hfields.2.1, hfields.2.2.1, hfields.2.2.2, ?_⟩
  rw [reload, run_loadCount hfields.2.2.2, settle_loadCount]

theorem failure_captured_and_recoverable_witness :
    ((runTrace (initState Nat Nat) [Event.autoFire true]).pending.isSome
        = true ∧
      (runTrace (initState Nat Nat) [Event.autoFire true]).mounted = true) ∧
    (settle (runTrace (initState Nat Nat) [Event.autoFire true])
      (Except.error 7)).status = StatusType.error :=
  ⟨⟨by decide, by decide⟩,
    (failure_captured_and_recoverable
      (runTrace (initState Nat Nat) [Event.autoFire true])
      (by decide) (by decide) 7).1⟩

/-- C10: a `loadFn` that resolves with `null` drives the controller into a
reachable state with `status = success` and `data = none`, and in that state
`RenderedView` selects the error path (here: no custom `Error` component, so
the default `ErrorView` with message "Failed to load data.") rather than the
`Success` variant — success does not imply data present at the public
interface. -/
theorem success_with_null_data_renders_error_path :
    (runTrace (initState Nat Nat)
      [Event.autoFire true, Event.settlement (Except.ok none)]).status
      = StatusType.success ∧
    (runTrace (initState Nat Nat)
      [Event.autoFire true, Event.settlement (Except.ok none)]).data = none ∧
    RenderedView false 0
      (runTrace (initState Nat Nat)
        [Event.autoFire true, Event.settlement (Except.ok none)]).status
      (runTrace (initState Nat Nat)
        [Event.autoFire true, Event.settlement (Except.ok none)]).data
      (runTrace (initState Nat Nat)
        [Event.autoFire true, Event.settlement (Except.ok none)]).error
      = Rendered.defaultError "Failed to load data." none 0 := by
  refine ⟨rfl, rfl, rfl⟩

end UseAsyncView
